import Mathlib

/-!
Verification of the UV and vitamin D tracker (src/src/app/page.tsx).

The page logic is embedded shallowly:
  - JavaScript numbers are modelled as exact rationals where the code only
    uses field arithmetic and comparisons, and as real numbers where
    trigonometric functions appear (deriveBaseUv, generateForecast).
  - The ambient clock reads (current month, current hour) are threaded as
    explicit parameters, following section 9 of the design notes.
  - localStorage is modelled as an `Option PersistedState` slot; a state
    update returns the new in-memory state together with the value written
    to the slot.
-/

/-- Clothing coverage presets (page.tsx lines 7 and 10 to 15). -/
inductive ClothingPreset
  | minimal
  | light
  | moderate
  | covered
  deriving DecidableEq, Repr

/-- Clothing attenuation factors from the preset table (page.tsx lines 10 to 15). -/
def ClothingPreset.attenuation : ClothingPreset → ℚ
  | .minimal => 1
  | .light => 0.8
  | .moderate => 0.6
  | .covered => 0.4

/-- Sunscreen presets (page.tsx lines 8 and 17 to 22). -/
inductive SunscreenPreset
  | none
  | spf15
  | spf30
  | spf50
  deriving DecidableEq, Repr

/-- Sunscreen attenuation factors from the preset table (page.tsx lines 17 to 22). -/
def SunscreenPreset.attenuation : SunscreenPreset → ℚ
  | .none => 1
  | .spf15 => 0.6
  | .spf30 => 0.4
  | .spf50 => 0.2

/-- Result record of `calculateExposureGain` (page.tsx line 154). -/
structure ExposureGain where
  effectiveUv : ℚ
  vitaminGain : ℚ
  deriving DecidableEq, Repr

/-- `calculateExposureGain` (page.tsx lines 143 to 155): elapsed seconds plus
base UV and the two attenuation presets give the effective UV and the vitamin
D gain at 5 IU per UV minute. -/
def calculateExposureGain (seconds baseUv : ℚ) (clothing : ClothingPreset)
    (sunscreen : SunscreenPreset) : ExposureGain :=
  let minutes := seconds / 60
  let clothingFactor := clothing.attenuation
  let sunscreenFactor := sunscreen.attenuation
  let effectiveUv := baseUv * clothingFactor * sunscreenFactor
  { effectiveUv := effectiveUv, vitaminGain := effectiveUv * minutes * 5 }

/-- Claim C1: for every elapsed time, base UV and preset pair,
`calculateExposureGain` returns `effectiveUv = baseUv * clothingAttenuation *
sunscreenAttenuation` and `vitaminGain = effectiveUv * (seconds / 60) * 5`;
the gain at 0 seconds is 0, and at 60 seconds with base UV 10, covered
clothing and SPF 50 the result is effective UV 0.8 and gain 4. -/
theorem calculateExposureGain_spec (seconds baseUv : ℚ) (c : ClothingPreset)
    (s : SunscreenPreset) :
    (calculateExposureGain seconds baseUv c s).effectiveUv
        = baseUv * c.attenuation * s.attenuation
    ∧ (calculateExposureGain seconds baseUv c s).vitaminGain
        = baseUv * c.attenuation * s.attenuation * (seconds / 60) * 5
    ∧ (calculateExposureGain 0 baseUv c s).vitaminGain = 0
    ∧ (calculateExposureGain 60 10 .covered .spf50).effectiveUv = 0.8
    ∧ (calculateExposureGain 60 10 .covered .spf50).vitaminGain = 4 := by
  refine ⟨rfl, rfl, ?_, by norm_num [calculateExposureGain,
    ClothingPreset.attenuation, SunscreenPreset.attenuation], by
    norm_num [calculateExposureGain, ClothingPreset.attenuation,
      SunscreenPreset.attenuation]⟩
  simp [calculateExposureGain]

/-- The durable record (page.tsx lines 28 to 34). Numeric fields are exact
rationals standing for JavaScript numbers. -/
structure PersistedState where
  location : String
  clothing : ClothingPreset
  sunscreen : SunscreenPreset
  vitaminGoal : ℚ
  vitaminProgress : ℚ
  deriving DecidableEq, Repr

/-- `defaultPersistedState` (page.tsx lines 36 to 42). -/
def defaultPersistedState : PersistedState :=
  { location := "San Francisco, CA"
    clothing := .light
    sunscreen := .spf30
    vitaminGoal := 1000
    vitaminProgress := 250 }

/-- A `Partial<PersistedState>` argument of `updateState` (page.tsx line 85):
each field is either absent or supplies a new value. -/
structure StateUpdates where
  location : Option String
  clothing : Option ClothingPreset
  sunscreen : Option SunscreenPreset
  vitaminGoal : Option ℚ
  vitaminProgress : Option ℚ
  deriving DecidableEq, Repr

/-- The empty update object `{}` passed by the ready effect (page.tsx line 179). -/
def noUpdates : StateUpdates :=
  { location := none, clothing := none, sunscreen := none,
    vitaminGoal := none, vitaminProgress := none }

/-- The spread merge `{ ...prev, ...updates }` (page.tsx line 87): a field
present in the update wins, otherwise the previous value is kept. -/
def mergeState (prev : PersistedState) (u : StateUpdates) : PersistedState :=
  { location := u.location.getD prev.location
    clothing := u.clothing.getD prev.clothing
    sunscreen := u.sunscreen.getD prev.sunscreen
    vitaminGoal := u.vitaminGoal.getD prev.vitaminGoal
    vitaminProgress := u.vitaminProgress.getD prev.vitaminProgress }

/-- `updateState` (page.tsx lines 85 to 95): merge the partial update into the
previous state, write the full merged record to the storage slot, and return
the merged record as the new in-memory state. The second component is the
value written to the slot. -/
def updateState (prev : PersistedState) (u : StateUpdates) :
    PersistedState × Option PersistedState :=
  let next := mergeState prev u
  (next, some next)

/-- The load branch of `usePersistedState` (page.tsx lines 70 to 76): each
field of the parsed record is kept when truthy, else replaced by its default.
A JavaScript string is falsy exactly when it is empty and a number exactly
when it is 0 (NaN has no rational counterpart); `clothing` and `sunscreen`
of a saved record are nonempty preset strings, hence always truthy, so
`parsed.clothing || default` reduces to `parsed.clothing` on a round trip. -/
def loadPersisted (parsed : PersistedState) : PersistedState :=
  { location := if parsed.location = "" then defaultPersistedState.location
      else parsed.location
    clothing := parsed.clothing
    sunscreen := parsed.sunscreen
    vitaminGoal := if parsed.vitaminGoal = 0 then defaultPersistedState.vitaminGoal
      else parsed.vitaminGoal
    vitaminProgress := if parsed.vitaminProgress = 0 then
      defaultPersistedState.vitaminProgress else parsed.vitaminProgress }

/-- Risk labels returned by `determineRiskLabel` (page.tsx lines 449 to 455). -/
inductive Risk
  | low
  | moderate
  | high
  | veryHigh
  | extreme
  deriving DecidableEq, Repr

/-- `determineRiskLabel` (page.tsx lines 449 to 455). -/
def determineRiskLabel (uv : ℚ) : Risk :=
  if uv < 3 then .low
  else if uv < 6 then .moderate
  else if uv < 8 then .high
  else if uv < 11 then .veryHigh
  else .extreme

/-- Claim C5: `determineRiskLabel` realises the exclusive-upper threshold
table: Low exactly below 3, Moderate on [3, 6), High on [6, 8), Very High on
[8, 11) and Extreme from 11 on; in particular 3 maps to Moderate, 10.9 to
Very High and 11 to Extreme. -/
theorem determineRiskLabel_spec (uv : ℚ) :
    (determineRiskLabel uv = .low ↔ uv < 3)
    ∧ (determineRiskLabel uv = .moderate ↔ 3 ≤ uv ∧ uv < 6)
    ∧ (determineRiskLabel uv = .high ↔ 6 ≤ uv ∧ uv < 8)
    ∧ (determineRiskLabel uv = .veryHigh ↔ 8 ≤ uv ∧ uv < 11)
    ∧ (determineRiskLabel uv = .extreme ↔ 11 ≤ uv)
    ∧ determineRiskLabel 3 = .moderate
    ∧ determineRiskLabel 10.9 = .veryHigh
    ∧ determineRiskLabel 11 = .extreme := by
  unfold determineRiskLabel
  refine ⟨?_, ?_, ?_, ?_, ?_, by norm_num, by norm_num, by norm_num⟩ <;>
    split_ifs <;> simp_all <;>
    first
      | linarith
      | (constructor <;> linarith)
      | (intro h; linarith)

/-- Claim C7: a saved state reloaded as on a fresh start keeps every truthy
field and replaces every falsy field by its hardcoded default; in particular
a saved vitaminProgress of 0 reloads as the default 250. -/
theorem loadPersisted_roundTrip (s : PersistedState) :
    (s.location ≠ "" → (loadPersisted s).location = s.location)
    ∧ (s.location = "" → (loadPersisted s).location = defaultPersistedState.location)
    ∧ (loadPersisted s).clothing = s.clothing
    ∧ (loadPersisted s).sunscreen = s.sunscreen
    ∧ (s.vitaminGoal ≠ 0 → (loadPersisted s).vitaminGoal = s.vitaminGoal)
    ∧ (s.vitaminGoal = 0 → (loadPersisted s).vitaminGoal = 1000)
    ∧ (s.vitaminProgress ≠ 0 → (loadPersisted s).vitaminProgress = s.vitaminProgress)
    ∧ (s.vitaminProgress = 0 → (loadPersisted s).vitaminProgress = 250) := by
  unfold loadPersisted defaultPersistedState
  refine ⟨fun h => ?_, fun h => ?_, rfl, rfl, fun h => ?_, fun h => ?_,
    fun h => ?_, fun h => ?_⟩ <;> simp [h]

/-- Witness for claim C7 at a concrete saved record with a nonzero goal and a
zero progress. -/
theorem loadPersisted_roundTrip_witness :
    (loadPersisted ⟨"Oslo", .covered, .none, 800, 0⟩).vitaminGoal = 800
    ∧ (loadPersisted ⟨"Oslo", .covered, .none, 800, 0⟩).vitaminProgress = 250 :=
  ⟨(loadPersisted_roundTrip ⟨"Oslo", .covered, .none, 800, 0⟩).2.2.2.2.1
      (by norm_num),
    (loadPersisted_roundTrip ⟨"Oslo", .covered, .none, 800, 0⟩).2.2.2.2.2.2.2
      rfl⟩

/-- Transient session state (page.tsx lines 159 and 160): the active flag and
the elapsed seconds counter. -/
structure Session where
  active : Bool
  seconds : ℕ
  deriving DecidableEq, Repr

/-- `handleStop` (page.tsx lines 189 to 201): a no-op unless the session is
active; otherwise deactivate the session, compute the exposure gain from the
frozen elapsed seconds, and update the persisted state with
`Math.round(previous progress + gain)` through `updateState`. The result is
the new session, the new in-memory persisted state and the slot write
performed (`none` when no write happens). `Math.round` is
`fun x => floor (x + 1/2)`, which is the Mathlib `round`. -/
def handleStop (sess : Session) (baseUv : ℚ) (ps : PersistedState) :
    Session × PersistedState × Option PersistedState :=
  if sess.active then
    let gain := (calculateExposureGain (sess.seconds : ℚ) baseUv
      ps.clothing ps.sunscreen).vitaminGain
    let upd := updateState ps { noUpdates with
      vitaminProgress := some ((round (ps.vitaminProgress + gain) : ℤ) : ℚ) }
    ({ active := false, seconds := sess.seconds }, upd.1, upd.2)
  else (sess, ps, none)

/-- Claim C6: when the session is running, stop deactivates it, keeps the
frozen elapsed seconds, and accumulates the exposure gain of the frozen
seconds into vitaminProgress, rounding at this accumulation point; when the
session is not running, stop changes nothing and performs no slot write. -/
theorem handleStop_spec (sess : Session) (baseUv : ℚ) (ps : PersistedState) :
    (sess.active = true →
      handleStop sess baseUv ps =
        ({ active := false, seconds := sess.seconds },
          { ps with vitaminProgress :=
              ((round (ps.vitaminProgress + (calculateExposureGain
                (sess.seconds : ℚ) baseUv ps.clothing ps.sunscreen).vitaminGain)
                : ℤ) : ℚ) },
          some { ps with vitaminProgress :=
              ((round (ps.vitaminProgress + (calculateExposureGain
                (sess.seconds : ℚ) baseUv ps.clothing ps.sunscreen).vitaminGain)
                : ℤ) : ℚ) }))
    ∧ (sess.active = false → handleStop sess baseUv ps = (sess, ps, none)) := by
  constructor <;> intro h <;>
    simp [handleStop, updateState, mergeState, noUpdates, h]

/-- Witness for claim C6: stopping an inactive session leaves everything
unchanged and writes nothing. -/
theorem handleStop_spec_witness :
    handleStop ⟨false, 5⟩ 10 defaultPersistedState =
      (⟨false, 5⟩, defaultPersistedState, none) :=
  (handleStop_spec ⟨false, 5⟩ 10 defaultPersistedState).2 rfl

/-- `Number(x.toFixed(1))`: rounding to one decimal. JavaScript toFixed picks
the nearest multiple of one tenth, ties toward the larger value, which is the
Mathlib `round` of ten times the argument. -/
noncomputable def toFixed1 (x : ℝ) : ℝ := ((round (x * 10) : ℤ) : ℝ) / 10

/-- Closed form of `toFixed1` through the floor characterisation. -/
theorem toFixed1_eq (x : ℝ) (n : ℤ) (h1 : (n : ℝ) ≤ x * 10 + 1 / 2)
    (h2 : x * 10 + 1 / 2 < n + 1) : toFixed1 x = (n : ℝ) / 10 := by
  unfold toFixed1
  rw [round_eq, Int.floor_eq_iff.mpr ⟨h1, h2⟩]

/-- Code point of the lowercased character, modelling
`location.toLowerCase()` followed by `charCodeAt` on the ASCII range (the
simple case mapping of the basic Latin block). -/
def jsLowerCode (c : Char) : ℕ :=
  if 65 ≤ c.toNat ∧ c.toNat ≤ 90 then c.toNat + 32 else c.toNat

/-- `deriveBaseUv` (page.tsx lines 113 to 121), with the ambient
`new Date().getMonth()` read threaded as the `month` parameter: sum the char
codes of the lowercased location, take the sum modulo 700, scale into [2, 8),
add the seasonal sine term times 3, clamp at 11 and round to one decimal. -/
noncomputable def deriveBaseUv (location : String) (month : ℕ) : ℝ :=
  let hash := (location.toList.map jsLowerCode).sum
  let seasonalBoost := Real.sin (((month : ℝ) + 1) / 12 * Real.pi)
  let normalized := ((hash % 700 : ℕ) : ℝ) / 700 * 6 + 2
  toFixed1 (min (normalized + seasonalBoost * 3) 11)

/-- Unfolded form of `deriveBaseUv`. -/
theorem deriveBaseUv_def (loc : String) (m : ℕ) :
    deriveBaseUv loc m =
      toFixed1 (min (
        (((loc.toList.map jsLowerCode).sum % 700 : ℕ) : ℝ) / 700 * 6 + 2
          + Real.sin (((m : ℝ) + 1) / 12 * Real.pi) * 3) 11) := rfl

/-- Modelled from the words of the spec for comparison with the code: the
value `deriveBaseUv` is claimed to compute for a given char code sum, namely
the sum modulo 700 scaled into [2, 8), plus the seasonal term
`sin(((month + 1) / 12) * pi) * 3`, clamped to at most 11 and rounded to one
decimal. -/
noncomputable def specUvFormula (hash month : ℕ) : ℝ :=
  toFixed1 (min (((hash % 700 : ℕ) : ℝ) / 700 * 6 + 2
    + Real.sin (((month : ℝ) + 1) / 12 * Real.pi) * 3) 11)

/-- The char code sum of the location string as the spec words it, without
lowercasing. -/
def specCharCodeSum (location : String) : ℕ :=
  (location.toList.map Char.toNat).sum

/-- Modelled from the words of the spec: `deriveBaseUv` as claimed, applied
to the raw character codes of the location string. -/
noncomputable def specDeriveBaseUv (location : String) (month : ℕ) : ℝ :=
  specUvFormula (specCharCodeSum location) month

/-- The December seasonal term vanishes: month index 11 gives `sin pi = 0`. -/
theorem seasonal_dec : Real.sin ((((11 : ℕ) : ℝ) + 1) / 12 * Real.pi) = 0 := by
  norm_num [Real.sin_pi]

/-- Value of the code function at location "A" in December. -/
theorem deriveBaseUv_at_A : deriveBaseUv "A" 11 = 14 / 5 := by
  rw [deriveBaseUv_def]
  have hh : ("A".toList.map jsLowerCode).sum = 97 := rfl
  rw [hh, seasonal_dec]
  have hmod : (97 % 700 : ℕ) = 97 := rfl
  rw [hmod]
  rw [min_eq_left (by norm_num)]
  rw [toFixed1_eq _ 28 (by norm_num) (by norm_num)]
  norm_num

/-- Value of the spec formula at location "A" in December. -/
theorem specDeriveBaseUv_at_A : specDeriveBaseUv "A" 11 = 13 / 5 := by
  unfold specDeriveBaseUv specUvFormula
  have hh : specCharCodeSum "A" = 65 := rfl
  rw [hh, seasonal_dec]
  have hmod : (65 % 700 : ℕ) = 65 := rfl
  rw [hmod]
  rw [min_eq_left (by norm_num)]
  rw [toFixed1_eq _ 26 (by norm_num) (by norm_num)]
  norm_num

/-- Counterexample to claim C2 as stated: the code lowercases the location
before summing char codes, so at location "A" in December the code yields 2.8
while the claimed formula over the raw char codes yields 2.6. -/
theorem deriveBaseUv_caseFolds : deriveBaseUv "A" 11 ≠ specDeriveBaseUv "A" 11 := by
  rw [deriveBaseUv_at_A, specDeriveBaseUv_at_A]
  norm_num

/-- Claim C2 amended: `deriveBaseUv` equals the claimed formula applied to
the char codes of the lowercased location string; the empty string is valid
with char code sum 0. -/
theorem deriveBaseUv_amended (loc : String) (m : ℕ) :
    deriveBaseUv loc m = specUvFormula ((loc.toList.map jsLowerCode).sum) m
    ∧ deriveBaseUv "" m = specUvFormula 0 m :=
  ⟨rfl, rfl⟩

/-- Claim C3: for every location string and every calendar month index (0 to
11), the base UV estimate lies in the closed interval [2, 11]. -/
theorem deriveBaseUv_range (loc : String) (m : ℕ) (hm : m < 12) :
    2 ≤ deriveBaseUv loc m ∧ deriveBaseUv loc m ≤ 11 := by
  rw [deriveBaseUv_def]
  set c : ℝ := (((loc.toList.map jsLowerCode).sum % 700 : ℕ) : ℝ) with hc
  have hc0 : 0 ≤ c := Nat.cast_nonneg _
  have hsin : 0 ≤ Real.sin (((m : ℝ) + 1) / 12 * Real.pi) := by
    apply Real.sin_nonneg_of_nonneg_of_le_pi
    · positivity
    · have hm11 : (m : ℝ) ≤ 11 := by exact_mod_cast Nat.lt_succ_iff.mp hm
      have h1 : ((m : ℝ) + 1) / 12 ≤ 1 := by linarith
      calc ((m : ℝ) + 1) / 12 * Real.pi ≤ 1 * Real.pi :=
            mul_le_mul_of_nonneg_right h1 Real.pi_pos.le
        _ = Real.pi := one_mul _
  set y : ℝ := min (c / 700 * 6 + 2 + Real.sin (((m : ℝ) + 1) / 12 * Real.pi) * 3) 11
    with hy
  have hy2 : 2 ≤ y := by
    apply le_min _ (by norm_num)
    have hterm : 0 ≤ Real.sin (((m : ℝ) + 1) / 12 * Real.pi) * 3 := by
      positivity
    have hscale : 0 ≤ c / 700 * 6 := by positivity
    linarith
  have hy11 : y ≤ 11 := min_le_right _ _
  unfold toFixed1
  rw [round_eq]
  have hfl : (20 : ℤ) ≤ ⌊y * 10 + 1 / 2⌋ := by
    apply Int.le_floor.mpr
    push_cast
    linarith
  have hfh : ⌊y * 10 + 1 / 2⌋ ≤ 110 := by
    have hlt : ⌊y * 10 + 1 / 2⌋ < 111 := by
      apply Int.floor_lt.mpr
      push_cast
      linarith
    omega
  constructor
  · have : (20 : ℝ) ≤ (⌊y * 10 + 1 / 2⌋ : ℝ) := by exact_mod_cast hfl
    linarith
  · have : ((⌊y * 10 + 1 / 2⌋ : ℤ) : ℝ) ≤ 110 := by exact_mod_cast hfh
    linarith

/-- Witness for claim C3 at the default location in June. -/
theorem deriveBaseUv_range_witness :
    2 ≤ deriveBaseUv "San Francisco, CA" 5
    ∧ deriveBaseUv "San Francisco, CA" 5 ≤ 11 :=
  deriveBaseUv_range "San Francisco, CA" 5 (by norm_num)

/-- One forecast entry (page.tsx line 24): the hour of day of the entry and
its UV value. The 12-hour text label rendered by date-fns is presentation;
the entry keeps the hour number `(current hour + index) mod 24`. -/
structure HourlyForecast where
  hour : ℕ
  uv : ℝ

/-- `generateForecast` (page.tsx lines 100 to 111), with the ambient current
hour threaded as `nowHour`: eight entries, index i carrying
`max(round1(baseUv * (0.4 + sin((i / 8) * pi))), 0)`. -/
noncomputable def generateForecast (nowHour : ℕ) (baseUv : ℝ) :
    List HourlyForecast :=
  (List.range 8).map fun index =>
    { hour := (nowHour + index) % 24
      uv := max (toFixed1 (baseUv * (0.4 + Real.sin ((index : ℝ) / 8 * Real.pi)))) 0 }

/-- Claim C4: the forecast always has exactly 8 entries; the entry at each
index i below 8 carries the UV value
`max(round1(baseUv * (0.4 + sin((i / 8) * pi))), 0)`, which is nonnegative. -/
theorem generateForecast_spec (nowHour : ℕ) (baseUv : ℝ) (i : ℕ) (hi : i < 8) :
    (generateForecast nowHour baseUv).length = 8
    ∧ ((generateForecast nowHour baseUv).getD i ⟨0, 0⟩).uv
        = max (toFixed1 (baseUv * (0.4 + Real.sin ((i : ℝ) / 8 * Real.pi)))) 0
    ∧ 0 ≤ ((generateForecast nowHour baseUv).getD i ⟨0, 0⟩).uv := by
  have hget : (generateForecast nowHour baseUv).getD i ⟨0, 0⟩
      = { hour := (nowHour + i) % 24
          uv := max (toFixed1 (baseUv * (0.4 + Real.sin ((i : ℝ) / 8 * Real.pi)))) 0 } := by
    simp [generateForecast, List.getD, List.getElem?_map, List.getElem?_range, hi]
  refine ⟨by simp [generateForecast], by rw [hget], ?_⟩
  rw [hget]
  exact le_max_right _ _

/-- Witness for claim C4 at hour 0, base UV 3, index 2. -/
theorem generateForecast_spec_witness :
    (generateForecast 0 3).length = 8
    ∧ ((generateForecast 0 3).getD 2 ⟨0, 0⟩).uv
        = max (toFixed1 (3 * (0.4 + Real.sin (((2 : ℕ) : ℝ) / 8 * Real.pi)))) 0
    ∧ 0 ≤ ((generateForecast 0 3).getD 2 ⟨0, 0⟩).uv :=
  generateForecast_spec 0 3 2 (by norm_num)

/-- The "-100 IU" button handler (page.tsx lines 401 to 410): update the
persisted state with `max(vitaminProgress - 100, 0)`. -/
def decrementProgress (ps : PersistedState) :
    PersistedState × Option PersistedState :=
  updateState ps { noUpdates with
    vitaminProgress := some (max (ps.vitaminProgress - 100) 0) }

/-- Claim C8: one decrement sets vitaminProgress to
`max(previous - 100, 0)`, and from any nonnegative starting progress any
number of decrements keeps vitaminProgress nonnegative. -/
theorem decrementProgress_floor (ps : PersistedState)
    (h : 0 ≤ ps.vitaminProgress) (n : ℕ) :
    (decrementProgress ps).1.vitaminProgress = max (ps.vitaminProgress - 100) 0
    ∧ 0 ≤ ((fun s => (decrementProgress s).1)^[n] ps).vitaminProgress := by
  refine ⟨rfl, ?_⟩
  induction n generalizing ps with
  | zero => simpa using h
  | succ k ih =>
    rw [Function.iterate_succ_apply]
    exact ih _ (le_max_right _ _)

/-- Witness for claim C8: three decrements from the default state. -/
theorem decrementProgress_floor_witness :
    (decrementProgress defaultPersistedState).1.vitaminProgress
        = max (defaultPersistedState.vitaminProgress - 100) 0
    ∧ 0 ≤ ((fun s => (decrementProgress s).1)^[3]
        defaultPersistedState).vitaminProgress :=
  decrementProgress_floor defaultPersistedState
    (by norm_num [defaultPersistedState]) 3

/-- The goal input handler (page.tsx lines 383 to 385): the DOM delivers the
field content as a string; `Number(value || 0)` maps the empty string (the
content a number input reports for cleared or invalid text) to 0 and a
numeric string to its value. The parsed content is modelled as an optional
rational, `none` standing for the empty string. -/
def handleGoalChange (ps : PersistedState) (value : Option ℚ) :
    PersistedState × Option PersistedState :=
  updateState ps { noUpdates with
    vitaminGoal := some (match value with | Option.none => 0 | some q => q) }

/-- `progressPercentage` (page.tsx lines 208 to 211). -/
def progressPercentage (ps : PersistedState) : ℚ :=
  min (ps.vitaminProgress / ps.vitaminGoal * 100) 100

/-- Counterexample to claim C9 as stated: clearing the goal input coerces the
goal to 0, so a reachable persisted state has a non-positive vitaminGoal and
the percentage computation divides by zero. -/
theorem vitaminGoal_zero_reachable :
    (handleGoalChange defaultPersistedState Option.none).1.vitaminGoal = 0 := rfl

/-- Claim C9 amended: the default goal is positive and a startup load never
returns a zero goal (a falsy stored goal falls back to 1000), but a goal edit
with empty or invalid input sets the goal to 0, so positivity is not an
invariant of all reachable states and the percentage division is only safe
away from such edits. -/
theorem vitaminGoal_positivity (s : PersistedState) :
    0 < defaultPersistedState.vitaminGoal
    ∧ (loadPersisted s).vitaminGoal ≠ 0
    ∧ (handleGoalChange s Option.none).1.vitaminGoal = 0 := by
  refine ⟨by norm_num [defaultPersistedState], ?_, rfl⟩
  unfold loadPersisted
  by_cases h : s.vitaminGoal = 0 <;> simp [h, defaultPersistedState]

/-- `startupLoad`: the one-time mount effect of `usePersistedState`
(page.tsx lines 65 to 83): an absent slot keeps the defaults, a present slot
is parsed and passed through the falsy-fallback load. -/
def startupLoad (slot : Option PersistedState) : PersistedState :=
  match slot with
  | some raw => loadPersisted raw
  | Option.none => defaultPersistedState

/-- The ready effect (page.tsx lines 177 to 181): once the readiness flag is
set, the component calls `updateState` with the empty partial update. -/
def readyEffect (s : PersistedState) : PersistedState × Option PersistedState :=
  updateState s noUpdates

/-- Claim C10: right after the startup load, the ready effect performs an
empty update that leaves the in-memory state unchanged and writes the full
post-fallback state back to the durable slot; hence merely loading the app
overwrites the stored record, and a stored vitaminProgress of 0 is durably
replaced by 250. -/
theorem readyEffect_writesBack (raw : PersistedState) :
    (readyEffect (startupLoad (some raw))).1 = loadPersisted raw
    ∧ (readyEffect (startupLoad (some raw))).2 = some (loadPersisted raw)
    ∧ (loadPersisted { raw with vitaminProgress := 0 }).vitaminProgress = 250 := by
  refine ⟨rfl, rfl, ?_⟩
  simp [loadPersisted, defaultPersistedState]
